import Mathlib

/-!
Verification of the `quantum-education` repository.

The repository consists of a single Jupyter notebook,
`src/one_off_talks/Simulating Noise in Terra, Aqua, and Qiskit Chemistry with Aer.ipynb`,
whose code cells form a linear Python script of calls into external
libraries (qiskit, qiskit-aqua, qiskit-chemistry, pyscf).

This development shallowly embeds the notebook's code cells as a list of
Python statements over a small expression language, together with

* purely syntactic analyses (which calls occur, with which arguments, in
  which order, bound to which names), and
* an executable interpreter in which every external-library call,
  attribute read, subscription and shell command is an effect answered by
  an `Oracle` (a function from the running effect counter to a result or a
  raised exception), so that error propagation and dependence of observable
  output on the external environment can be stated and proved, and
* the standard basis-state semantics of the 3-qubit toy circuit the
  notebook builds, so that the support of its noiseless measurement
  distribution can be computed.

All definitions are transcribed from the notebook source; cell numbers in
comments refer to the order of the code cells in the `.ipynb` file.
-/

/-- Binary arithmetic operators occurring in the notebook. -/
inductive BinOp where
  | add
  | mul
  deriving DecidableEq, Repr

/-- Python expressions, restricted to the forms occurring in the notebook:
literals, variable references, attribute access, subscription with a
constant index, calls with positional and keyword arguments, and binary
arithmetic. -/
inductive Expr where
  | intLit (n : Int)
  | strLit (s : String)
  | name (x : String)
  | attr (e : Expr) (field : String)
  | sub (e : Expr) (index : Nat)
  | call (f : Expr) (args : List Expr) (kwargs : List (String × Expr))
  | binop (op : BinOp) (a b : Expr)
  deriving Repr

/-- Python statements.  The notebook only ever uses the first four forms
(assignment, expression statement, import, shell escape); the remaining
constructors (function and class definitions, `try`/`except`, `if`/`else`,
bounded `for` loops) are included so that their absence from the notebook
is a statement about the source rather than about the embedding. -/
inductive Stmt where
  | assign (x : String) (e : Expr)
  | exprStmt (e : Expr)
  | pyImport (module : String) (names : List String)
  | shell (cmd : String)
  | funcDef (fname : String) (params : List String) (body : List Stmt)
  | classDef (cname : String) (body : List Stmt)
  | tryExcept (body handler : List Stmt)
  | ifElse (cond : Expr) (thenBranch elseBranch : List Stmt)
  | forLoop (v : String) (iterations : Nat) (body : List Stmt)
  deriving Repr

mutual

/-- Structural Boolean equality on expressions. -/
def Expr.beq : Expr → Expr → Bool
  | .intLit a, .intLit b => a == b
  | .strLit a, .strLit b => a == b
  | .name a, .name b => a == b
  | .attr e1 f1, .attr e2 f2 => Expr.beq e1 e2 && f1 == f2
  | .sub e1 i1, .sub e2 i2 => Expr.beq e1 e2 && i1 == i2
  | .call f1 a1 k1, .call f2 a2 k2 =>
      Expr.beq f1 f2 && exprListBeq a1 a2 && kwListBeq k1 k2
  | .binop o1 a1 b1, .binop o2 a2 b2 =>
      o1 == o2 && Expr.beq a1 a2 && Expr.beq b1 b2
  | _, _ => false

/-- Structural Boolean equality on expression lists. -/
def exprListBeq : List Expr → List Expr → Bool
  | [], [] => true
  | a :: as, b :: bs => Expr.beq a b && exprListBeq as bs
  | _, _ => false

/-- Structural Boolean equality on keyword-argument lists. -/
def kwListBeq : List (String × Expr) → List (String × Expr) → Bool
  | [], [] => true
  | (x, a) :: as, (y, b) :: bs => x == y && Expr.beq a b && kwListBeq as bs
  | _, _ => false

end

/-- The code cells of the notebook, in execution order, as a statement
list.  Markdown cells carry no code and are omitted; an `import M`
statement is recorded as `pyImport M [M]` (it binds the module name) and a
`from M import a, b` statement as `pyImport M [a, b]`. -/
def notebook : List Stmt := [
  -- cell 4
  .shell "pip install --no-cache qiskit",
  -- cell 6
  .shell "pip install qiskit-aqua",
  -- cell 7
  .shell "pip install qiskit-chemistry",
  -- cell 8
  .shell "pip install pyscf",
  -- cell 10
  .pyImport "qiskit" ["Aer", "IBMQ", "execute"],
  .pyImport "qiskit.providers.aer" ["noise"],
  .pyImport "qiskit" ["QuantumCircuit", "QuantumRegister", "ClassicalRegister"],
  .pyImport "qiskit.tools.monitor" ["job_monitor"],
  -- cell 12
  .exprStmt (.call (.attr (.name "IBMQ") "load_accounts") [] []),
  .exprStmt (.call (.name "print") [.strLit "Available backends:"] []),
  .exprStmt (.call (.attr (.name "IBMQ") "backends") [] []),
  -- cell 14
  .assign "device" (.call (.attr (.name "IBMQ") "get_backend") [.strLit "ibmq_poughkeepsie"] []),
  .assign "properties" (.call (.attr (.name "device") "properties") [] []),
  .assign "coupling_map" (.attr (.call (.attr (.name "device") "configuration") [] []) "coupling_map"),
  -- cell 16
  .pyImport "qiskit.providers.aer" ["noise"],
  -- cell 17
  .assign "noise_model"
    (.call (.attr (.attr (.name "noise") "device") "basic_device_noise_model") [.name "properties"] []),
  -- cell 19
  .assign "qr" (.call (.name "QuantumRegister") [.intLit 3] []),
  .assign "cr" (.call (.name "ClassicalRegister") [.intLit 3] []),
  .assign "circuit" (.call (.name "QuantumCircuit") [.name "qr", .name "cr"] []),
  .exprStmt (.call (.attr (.name "circuit") "h") [.sub (.name "qr") 0] []),
  .exprStmt (.call (.attr (.name "circuit") "cx") [.sub (.name "qr") 0, .sub (.name "qr") 1] []),
  .exprStmt (.call (.attr (.name "circuit") "cx") [.sub (.name "qr") 1, .sub (.name "qr") 2] []),
  .exprStmt (.call (.attr (.name "circuit") "barrier") [] []),
  .exprStmt (.call (.attr (.name "circuit") "measure") [.name "qr", .name "cr"] []),
  .exprStmt (.call (.attr (.name "circuit") "draw") [] []),
  -- cell 21
  .assign "simulator" (.call (.attr (.name "Aer") "get_backend") [.strLit "qasm_simulator"] []),
  -- cell 22
  .exprStmt (.call (.attr (.call (.attr
      (.call (.name "execute") [.name "circuit", .name "simulator"] [])
      "result") [] []) "get_counts") [] []),
  -- cell 24
  .assign "basis_gates" (.attr (.name "noise_model") "basis_gates"),
  .assign "result_noise" (.call (.attr
      (.call (.name "execute") [.name "circuit", .name "simulator"]
        [("noise_model", .name "noise_model"),
         ("coupling_map", .name "coupling_map"),
         ("basis_gates", .name "basis_gates")])
      "result") [] []),
  .assign "counts_noise" (.call (.attr (.name "result_noise") "get_counts") [.name "circuit"] []),
  -- cell 25
  .exprStmt (.call (.name "print") [.name "counts_noise"] []),
  -- cell 27
  .pyImport "logging" ["logging"],
  .pyImport "qiskit_aqua._logging" ["set_logging_config", "build_logging_config", "set_aqua_logging"],
  .exprStmt (.call (.name "set_aqua_logging") [.attr (.name "logging") "DEBUG"] []),
  -- cell 28
  .pyImport "collections" ["OrderedDict"],
  .pyImport "qiskit_chemistry" ["FermionicOperator"],
  .pyImport "qiskit_chemistry.drivers" ["PySCFDriver", "UnitsType"],
  .assign "driver" (.call (.name "PySCFDriver") []
    [("atom", .strLit "H .0 .0 .0; H .0 .0 0.735"),
     ("unit", .attr (.name "UnitsType") "ANGSTROM"),
     ("charge", .intLit 0),
     ("spin", .intLit 0),
     ("basis", .strLit "sto3g")]),
  .assign "molecule" (.call (.attr (.name "driver") "run") [] []),
  .assign "num_particles"
    (.binop .add (.attr (.name "molecule") "num_alpha") (.attr (.name "molecule") "num_beta")),
  .assign "num_spin_orbitals"
    (.binop .mul (.attr (.name "molecule") "num_orbitals") (.intLit 2)),
  .assign "ferOp" (.call (.name "FermionicOperator") []
    [("h1", .attr (.name "molecule") "one_body_integrals"),
     ("h2", .attr (.name "molecule") "two_body_integrals")]),
  .assign "map_type" (.strLit "PARITY"),
  .assign "qubitOp" (.call (.attr (.name "ferOp") "mapping") [.name "map_type"] []),
  .assign "qubitOp" (.call (.attr (.name "qubitOp") "two_qubit_reduced_operator") [.name "num_particles"] []),
  .assign "num_qubits" (.attr (.name "qubitOp") "num_qubits"),
  .pyImport "qiskit_aqua.components.optimizers" ["SPSA"],
  .assign "optimizer" (.call (.name "SPSA") [] []),
  .pyImport "qiskit_chemistry.aqua_extensions.components.initial_states" ["HartreeFock"],
  .assign "init_state"
    (.call (.name "HartreeFock") [.name "num_qubits", .name "num_spin_orbitals", .name "num_particles"] []),
  .pyImport "qiskit_aqua.components.variational_forms" ["RYRZ"],
  .assign "var_form" (.call (.name "RYRZ") [.name "num_qubits"] [("initial_state", .name "init_state")]),
  .pyImport "qiskit_aqua.algorithms" ["VQE"],
  .assign "algorithm" (.call (.name "VQE") [.name "qubitOp", .name "var_form", .name "optimizer"] []),
  -- cell 30
  .pyImport "qiskit_aqua" ["QuantumInstance"],
  .assign "quantum_instance" (.call (.name "QuantumInstance") []
    [("backend", .name "simulator"), ("noise_model", .name "noise_model")]),
  .assign "result" (.call (.attr (.name "algorithm") "run") [.name "quantum_instance"] []),
  .exprStmt (.call (.name "print") [.name "result"] [])
]

mutual

/-- All subexpression nodes of an expression, the expression itself
included. -/
def subExprs : Expr → List Expr
  | e@(.attr e1 _) => e :: subExprs e1
  | e@(.sub e1 _) => e :: subExprs e1
  | e@(.call f args kwargs) =>
      e :: (subExprs f ++ subExprsList args ++ subExprsKw kwargs)
  | e@(.binop _ a b) => e :: (subExprs a ++ subExprs b)
  | e => [e]

/-- All subexpression nodes of a list of expressions. -/
def subExprsList : List Expr → List Expr
  | [] => []
  | e :: rest => subExprs e ++ subExprsList rest

/-- All subexpression nodes of a keyword-argument list. -/
def subExprsKw : List (String × Expr) → List Expr
  | [] => []
  | (_, e) :: rest => subExprs e ++ subExprsKw rest

end

mutual

/-- A statement together with every statement nested inside it. -/
def stmtWithNested : Stmt → List Stmt
  | s@(.funcDef _ _ body) => s :: nestedStmts body
  | s@(.classDef _ body) => s :: nestedStmts body
  | s@(.tryExcept body handler) => s :: (nestedStmts body ++ nestedStmts handler)
  | s@(.ifElse _ thenBranch elseBranch) => s :: (nestedStmts thenBranch ++ nestedStmts elseBranch)
  | s@(.forLoop _ _ body) => s :: nestedStmts body
  | s => [s]

/-- Every statement of a statement list, nested statements included. -/
def nestedStmts : List Stmt → List Stmt
  | [] => []
  | s :: rest => stmtWithNested s ++ nestedStmts rest

end

/-- The top-level expressions of a single statement. -/
def stmtOwnExprs : Stmt → List Expr
  | .assign _ e => [e]
  | .exprStmt e => [e]
  | .ifElse cond _ _ => [cond]
  | _ => []

/-- Every expression node occurring anywhere in a statement list. -/
def allSubExprs (stmts : List Stmt) : List Expr :=
  ((nestedStmts stmts).flatMap stmtOwnExprs).flatMap subExprs

/-- The name/RHS pairs of every assignment in a statement list. -/
def allAssigns (stmts : List Stmt) : List (String × Expr) :=
  (nestedStmts stmts).flatMap fun s =>
    match s with
    | .assign x e => [(x, e)]
    | _ => []

/-- The right-hand sides of the assignments to a given variable, in
program order. -/
def assignsTo (x : String) (stmts : List Stmt) : List Expr :=
  (allAssigns stmts).filterMap fun p => if p.1 == x then some p.2 else none

/-- All call expressions whose callee is the bare name `fname`. -/
def callsNamed (fname : String) (stmts : List Stmt) : List Expr :=
  (allSubExprs stmts).filter fun e =>
    match e with
    | .call (.name f) _ _ => f == fname
    | _ => false

/-- Whether a call expression carries a keyword argument with the given
key. -/
def callHasKwarg (key : String) : Expr → Bool
  | .call _ _ kwargs => kwargs.any fun p => p.1 == key
  | _ => false

/-- Whether a call expression carries the keyword argument `key = v`. -/
def callHasKwargVal (key : String) (v : Expr) : Expr → Bool
  | .call _ _ kwargs => kwargs.any fun p => p.1 == key && Expr.beq p.2 v
  | _ => false

/-- Whether an expression is a call. -/
def isCallExpr : Expr → Bool
  | .call _ _ _ => true
  | _ => false

/-- Whether the value of a right-hand side comes from the external
libraries: it is a library call, or an attribute read off a library
object, or a subscription of one. -/
def isExternRhs : Expr → Bool
  | .call _ _ _ => true
  | .attr _ _ => true
  | .sub _ _ => true
  | _ => false

/-- No `try`/`except` statement occurs anywhere in the list. -/
def noTryStmts (stmts : List Stmt) : Bool :=
  (nestedStmts stmts).all fun s =>
    match s with
    | .tryExcept _ _ => false
    | _ => true

/-- No loop statement occurs anywhere in the list. -/
def noLoopStmts (stmts : List Stmt) : Bool :=
  (nestedStmts stmts).all fun s =>
    match s with
    | .forLoop _ _ _ => false
    | _ => true

/-- No conditional statement occurs anywhere in the list. -/
def noBranchStmts (stmts : List Stmt) : Bool :=
  (nestedStmts stmts).all fun s =>
    match s with
    | .ifElse _ _ _ => false
    | _ => true

/-- No function definition occurs anywhere in the list. -/
def noFuncDefs (stmts : List Stmt) : Bool :=
  (nestedStmts stmts).all fun s =>
    match s with
    | .funcDef _ _ _ => false
    | _ => true

/-- No class definition occurs anywhere in the list. -/
def noClassDefs (stmts : List Stmt) : Bool :=
  (nestedStmts stmts).all fun s =>
    match s with
    | .classDef _ _ => false
    | _ => true

/-- The identifier strings an expression node contributes: variable names
and attribute names. -/
def exprNodeNames : Expr → List String
  | .name x => [x]
  | .attr _ f => [f]
  | _ => []

/-- Every identifier occurring in the statement list: variable and
attribute names of all expressions, imported module paths and imported
names, shell command lines, and defined function or class names. -/
def usedIdents (stmts : List Stmt) : List String :=
  ((allSubExprs stmts).flatMap exprNodeNames) ++
  ((nestedStmts stmts).flatMap fun s =>
    match s with
    | .pyImport m names => m :: names
    | .shell cmd => [cmd]
    | .funcDef f params _ => f :: params
    | .classDef cname _ => [cname]
    | _ => [])

/-- Identifiers of Python concurrency primitives (threading,
multiprocessing, asyncio, concurrent.futures, and the low-level process
interfaces). -/
def concurrencyIdents : List String :=
  ["threading", "thread", "Thread", "multiprocessing", "Process", "Pool",
   "concurrent", "futures", "Future", "ThreadPoolExecutor", "ProcessPoolExecutor",
   "Executor", "asyncio", "ensure_future", "create_task", "run_coroutine_threadsafe",
   "fork", "forkpty", "spawn", "Lock", "RLock", "Semaphore", "Condition",
   "Barrier", "Event", "Queue", "JoinableQueue", "Pipe", "Manager",
   "start_new_thread", "allocate_lock", "greenlet", "gevent"]

/-- No identifier used by the statement list is a concurrency primitive. -/
def noConcurrency (stmts : List Stmt) : Bool :=
  (usedIdents stmts).all fun s => !(concurrencyIdents.contains s)

/-- The stage (per the spec's five-step overview) that a callee belongs
to, read off the notebook's call targets: 2 = authenticate and fetch the
device's calibration data, 3 = build the noise model, 4 = construct and
run the toy circuit, 5 = chemistry/VQE workflow.  `0` means the callee
fixes no stage. -/
def calleeStage : Expr → Nat
  | .attr (.name "IBMQ") _ => 2
  | .attr (.name "device") _ => 2
  | .attr (.attr (.name "noise") "device") "basic_device_noise_model" => 3
  | .name "execute" => 4
  | .name "QuantumRegister" => 4
  | .name "ClassicalRegister" => 4
  | .name "QuantumCircuit" => 4
  | .attr (.name "circuit") _ => 4
  | .attr (.name "Aer") _ => 4
  | .attr (.name "result_noise") _ => 4
  | .name "set_aqua_logging" => 5
  | .name "PySCFDriver" => 5
  | .attr (.name "driver") _ => 5
  | .name "FermionicOperator" => 5
  | .attr (.name "ferOp") _ => 5
  | .attr (.name "qubitOp") _ => 5
  | .name "SPSA" => 5
  | .name "HartreeFock" => 5
  | .name "RYRZ" => 5
  | .name "VQE" => 5
  | .name "QuantumInstance" => 5
  | .attr (.name "algorithm") _ => 5
  | _ => 0

/-- The stage of an expression: the maximal stage among the callees of
all call nodes inside it. -/
def exprStage (e : Expr) : Nat :=
  ((subExprs e).map fun se =>
    match se with
    | .call f _ _ => calleeStage f
    | _ => 0).foldr max 0

/-- The stage of a statement under the claim's classification, in which
package installation and every import belong to stage 1. -/
def stmtStage : Stmt → Nat
  | .shell _ => 1
  | .pyImport _ _ => 1
  | .assign _ e => exprStage e
  | .exprStmt e => exprStage e
  | _ => 0

/-- The stage of a statement counting only the operational library calls:
package installation is stage 1, import statements fix no stage. -/
def opStage : Stmt → Nat
  | .pyImport _ _ => 0
  | s => stmtStage s

/-- The nonzero entries of the statements' stages, in program order. -/
def stagesOf (f : Stmt → Nat) (stmts : List Stmt) : List Nat :=
  (stmts.map f).filter fun n => n != 0

/-- Whether a list of naturals is nondecreasing. -/
def isMonotone : List Nat → Bool
  | [] => true
  | [_] => true
  | a :: b :: rest => Nat.ble a b && isMonotone (b :: rest)

/-- Opaque runtime values: the integers and strings the script
manipulates itself, Python's `None`, and opaque handles to objects owned
by the external libraries. -/
inductive Value where
  | vint (n : Int)
  | vstr (s : String)
  | vnone
  | obj (tag : Nat)
  deriving DecidableEq, Repr

/-- Interpreter state: the variable environment, the running count of
external effects performed so far, and the stream of displayed/printed
values. -/
structure RState where
  env : List (String × Value)
  ctr : Nat
  outs : List Value
  deriving DecidableEq, Repr

/-- The external world: the result of the `k`-th external effect
(library call, attribute read, subscription, or shell command), either a
value or a raised exception. -/
def Oracle : Type := Nat → Except String Value

/-- The empty starting state. -/
def initState : RState := ⟨[], 0, []⟩

/-- First binding of a variable in the environment. -/
def lookupEnv (env : List (String × Value)) (x : String) : Option Value :=
  match env with
  | [] => none
  | (y, v) :: rest => if y == x then some v else lookupEnv rest x

/-- Semantics of the arithmetic operators on integers. -/
def intBinop : BinOp → Int → Int → Int
  | .add, a, b => a + b
  | .mul, a, b => a * b

/-- Perform one external effect: consult the oracle at the current
counter and advance the counter, whether the effect returned a value or
raised. -/
def externEffect (o : Oracle) (st : RState) : RState × Except String Value :=
  match o st.ctr with
  | .ok v => (⟨st.env, st.ctr + 1, st.outs⟩, .ok v)
  | .error err => (⟨st.env, st.ctr + 1, st.outs⟩, .error err)

/-- Python truthiness of a value. -/
def truthy : Value → Bool
  | .vint n => n != 0
  | .vstr s => s != ""
  | .vnone => false
  | .obj _ => true

mutual

/-- Evaluate an expression: literals and variable lookups are internal;
attribute reads, subscriptions and calls are external effects answered by
the oracle; arithmetic requires integer operands.  A raised exception is
returned with the state at the point it was raised and is never caught
here. -/
def evalExpr (o : Oracle) : Expr → RState → RState × Except String Value
  | .intLit n, st => (st, .ok (.vint n))
  | .strLit s, st => (st, .ok (.vstr s))
  | .name x, st =>
      match lookupEnv st.env x with
      | some v => (st, .ok v)
      | none => (st, .error ("NameError: " ++ x))
  | .attr e _f, st =>
      match evalExpr o e st with
      | (st1, .ok _) => externEffect o st1
      | (st1, .error err) => (st1, .error err)
  | .sub e _i, st =>
      match evalExpr o e st with
      | (st1, .ok _) => externEffect o st1
      | (st1, .error err) => (st1, .error err)
  | .binop op a b, st =>
      match evalExpr o a st with
      | (st1, .ok va) =>
          (match evalExpr o b st1 with
           | (st2, .ok vb) =>
               (match va, vb with
                | .vint na, .vint nb => (st2, .ok (.vint (intBinop op na nb)))
                | _, _ => (st2, .error "TypeError"))
           | (st2, .error err) => (st2, .error err))
      | (st1, .error err) => (st1, .error err)
  | .call f args kwargs, st =>
      match evalExpr o f st with
      | (st1, .ok _) =>
          (match evalExprList o args st1 with
           | (st2, .ok _) =>
               (match evalKwList o kwargs st2 with
                | (st3, .ok _) => externEffect o st3
                | (st3, .error err) => (st3, .error err))
           | (st2, .error err) => (st2, .error err))
      | (st1, .error err) => (st1, .error err)

/-- Evaluate a list of expressions left to right. -/
def evalExprList (o : Oracle) : List Expr → RState → RState × Except String (List Value)
  | [], st => (st, .ok [])
  | e :: rest, st =>
      match evalExpr o e st with
      | (st1, .ok v) =>
          (match evalExprList o rest st1 with
           | (st2, .ok vs) => (st2, .ok (v :: vs))
           | (st2, .error err) => (st2, .error err))
      | (st1, .error err) => (st1, .error err)

/-- Evaluate the values of a keyword-argument list left to right. -/
def evalKwList (o : Oracle) : List (String × Expr) → RState → RState × Except String (List Value)
  | [], st => (st, .ok [])
  | (_, e) :: rest, st =>
      match evalExpr o e st with
      | (st1, .ok v) =>
          (match evalKwList o rest st1 with
           | (st2, .ok vs) => (st2, .ok (v :: vs))
           | (st2, .error err) => (st2, .error err))
      | (st1, .error err) => (st1, .error err)

end

mutual

/-- Execute one statement.  `print` is the one built-in: it appends its
arguments to the output stream; the value of any other expression
statement is displayed, i.e. also appended to the output stream.  An
uncaught exception is reported in the second component. -/
def execStmt (o : Oracle) : Stmt → RState → RState × Option String
  | .assign x e, st =>
      (match evalExpr o e st with
       | (st1, .ok v) => (⟨(x, v) :: st1.env, st1.ctr, st1.outs⟩, none)
       | (st1, .error err) => (st1, some err))
  | .exprStmt (.call (.name "print") args []), st =>
      (match evalExprList o args st with
       | (st1, .ok vs) => (⟨st1.env, st1.ctr, st1.outs ++ vs⟩, none)
       | (st1, .error err) => (st1, some err))
  | .exprStmt e, st =>
      (match evalExpr o e st with
       | (st1, .ok v) => (⟨st1.env, st1.ctr, st1.outs ++ [v]⟩, none)
       | (st1, .error err) => (st1, some err))
  | .pyImport _m names, st =>
      (⟨(names.map fun n => (n, Value.obj 0)) ++ st.env, st.ctr, st.outs⟩, none)
  | .shell _cmd, st =>
      (match externEffect o st with
       | (st1, .ok _) => (st1, none)
       | (st1, .error err) => (st1, some err))
  | .funcDef fname _ _, st => (⟨(fname, Value.obj 0) :: st.env, st.ctr, st.outs⟩, none)
  | .classDef cname _, st => (⟨(cname, Value.obj 0) :: st.env, st.ctr, st.outs⟩, none)
  | .tryExcept body handler, st =>
      (match runStmts o body st with
       | (st1, none) => (st1, none)
       | (st1, some _) => runStmts o handler st1)
  | .ifElse cond thenBranch elseBranch, st =>
      (match evalExpr o cond st with
       | (st1, .ok v) => if truthy v then runStmts o thenBranch st1 else runStmts o elseBranch st1
       | (st1, .error err) => (st1, some err))
  | .forLoop _v iterations body, st =>
      Nat.rec (motive := fun _ => RState × Option String)
        (st, none)
        (fun _ ih =>
          match ih with
          | (st1, none) => runStmts o body st1
          | (st1, some err) => (st1, some err))
        iterations

/-- Execute a statement list in order, stopping at the first uncaught
exception. -/
def runStmts (o : Oracle) : List Stmt → RState → RState × Option String
  | [], st => (st, none)
  | s :: rest, st =>
      match execStmt o s st with
      | (st1, none) => runStmts o rest st1
      | (st1, some err) => (st1, some err)

end

/-- An external world in which every effect succeeds and returns the
integer 0. -/
def baseOracle : Oracle := fun _ => .ok (.vint 0)

/-- An external world identical to `baseOracle` except at effects 44, 50
and 74, which are the three sampling-dependent effects of the notebook
run: effect 44 answers `get_counts()` of the noiseless execution (cell
22), effect 50 answers `result_noise.get_counts(circuit)` of the noisy
execution (cell 24), and effect 74 answers `algorithm.run(...)`, the VQE
result (cell 30). -/
def resampleOracle : Oracle := fun k =>
  if k == 44 || k == 50 || k == 74 then .ok (.vint 1) else .ok (.vint 0)

/-- An external world whose very first effect raises (e.g. the initial
`pip install` has no network connection). -/
def failOracle : Oracle := fun _ => .error "ConnectionError"

/-- The operations of the toy quantum circuit: Hadamard, controlled-NOT,
barrier, and the final measurement of all qubits into the classical
register. -/
inductive CircuitOp where
  | h (q : Nat)
  | cx (control target : Nat)
  | barrier
  | measureAll
  deriving DecidableEq, Repr

/-- Read a circuit operation off a notebook statement: the method calls
`circuit.h(qr[i])`, `circuit.cx(qr[i], qr[j])`, `circuit.barrier()` and
`circuit.measure(qr, cr)`. -/
def opOfStmt : Stmt → Option CircuitOp
  | .exprStmt (.call (.attr (.name "circuit") "h") [.sub (.name "qr") i] []) =>
      some (.h i)
  | .exprStmt (.call (.attr (.name "circuit") "cx") [.sub (.name "qr") i, .sub (.name "qr") j] []) =>
      some (.cx i j)
  | .exprStmt (.call (.attr (.name "circuit") "barrier") [] []) => some .barrier
  | .exprStmt (.call (.attr (.name "circuit") "measure") [.name "qr", .name "cr"] []) =>
      some .measureAll
  | _ => none

/-- The toy circuit's operations, in program order, as read off the
notebook. -/
def circuitOps : List CircuitOp := notebook.filterMap opOfStmt

/-- Flip bit `q` of a 3-bit basis-state index (qubit `q` of the basis
state, qubit 0 being the least significant bit, as in qiskit). -/
def flipBit (q : Nat) (i : Fin 8) : Fin 8 :=
  ⟨(i.val ^^^ (1 <<< q)) % 8, Nat.mod_lt _ (by decide)⟩

/-- Apply one circuit operation to an (unnormalised, integer-amplitude)
3-qubit state: `h q` acts as the matrix [[1, 1], [1, -1]] on qubit `q`
(the overall factor 1/sqrt 2 is dropped, which rescales all amplitudes
alike), `cx` permutes the basis states, and `barrier`/`measureAll` do not
change the state. -/
def applyOp (s : Fin 8 → Int) : CircuitOp → (Fin 8 → Int)
  | .h q => fun i =>
      if i.val.testBit q then s (flipBit q i) - s i else s i + s (flipBit q i)
  | .cx control target => fun i =>
      if i.val.testBit control then s (flipBit target i) else s i
  | .barrier => s
  | .measureAll => s

/-- The initial state: all three qubits in the basis state 0. -/
def initAmp : Fin 8 → Int := fun i => if i.val = 0 then 1 else 0

/-- The (unnormalised) final statevector of the toy circuit. -/
def finalAmp : Fin 8 → Int := circuitOps.foldl applyOp initAmp

/-- The (unnormalised) probability weight of observing basis state `i`
when the final state is measured: the squared amplitude. -/
def outcomeWeight (i : Fin 8) : Int := finalAmp i * finalAmp i

/-- A possible result of a noiseless `qasm_simulator` run of the toy
circuit with the given number of shots, per the sampling semantics the
notebook's own text states ("with no noise model specified, the
qasm_simulator will ... simply sample from the distribution described by
that statevector"): a function counting each observed outcome, where the
counts total `shots` and an outcome of zero probability weight is never
observed. -/
def NoiselessSample (shots : Nat) (c : Fin 8 → Nat) : Prop :=
  Finset.univ.sum c = shots ∧ ∀ i, outcomeWeight i = 0 → c i = 0

/-- The bitstring qiskit reports for the 3-bit outcome `i` (qubit 2
leftmost, qubit 0 rightmost). -/
def bitstringOf (i : Fin 8) : String :=
  (if i.val.testBit 2 then "1" else "0") ++
  (if i.val.testBit 1 then "1" else "0") ++
  (if i.val.testBit 0 then "1" else "0")

/-- The outcome counts the notebook's recorded noiseless run displays:
`{'000': 512, '111': 512}`. -/
def ghzCounts : Fin 8 → Nat :=
  fun i => if i.val = 0 then 512 else if i.val = 7 then 512 else 0

/-- The variables whose values the notebook computes itself rather than
receiving from an external-library call: a string literal and two
integers derived by arithmetic from attributes of the `molecule` result
object. -/
def selfComputedNames : List String := ["map_type", "num_particles", "num_spin_orbitals"]

/-- Running a concatenation of statement lists runs the prefix first and
continues with the suffix only when the prefix raised no exception. -/
theorem runStmts_append (o : Oracle) (p q : List Stmt) (st : RState) :
    runStmts o (p ++ q) st =
      match runStmts o p st with
      | (st1, none) => runStmts o q st1
      | (st1, some err) => (st1, some err) := by
  induction p generalizing st with
  | nil => rfl
  | cons s rest ih =>
      simp only [List.cons_append, runStmts]
      rcases h : execStmt o s st with ⟨st1, e⟩
      cases e with
      | none => exact ih st1
      | some err => rfl

/-- C1 (counterexample): under the claim's own stage classification — in
which installing and importing the SDK and chemistry packages is stage
(1), fetching the device data stage (2), building the noise model stage
(3), the toy circuit stage (4) and the chemistry/VQE workflow stage (5) —
the notebook's statement stages are not monotone: the stage list below
shows stage-1 entries (the duplicate SDK import of cell 16, at position
14, and the chemistry imports of cells 27–30) occurring after stage-2,
-3 and -4 statements, so the stage-1 work does not all precede the later
stages. -/
theorem C1_counterexample :
    notebook.map stmtStage =
      [1, 1, 1, 1, 1, 1, 1, 1, 2, 0, 2, 2, 2, 2, 1, 3, 4, 4, 4, 4, 4, 4, 4,
       4, 4, 4, 4, 0, 4, 4, 0, 1, 1, 5, 1, 1, 1, 5, 5, 0, 0, 5, 0, 5, 5, 0,
       1, 5, 1, 5, 1, 5, 1, 5, 1, 5, 5, 0] ∧
    isMonotone (stagesOf stmtStage notebook) = false := by
  exact ⟨by decide, by decide⟩

/-- C1 (amended): the notebook is a single linear statement sequence with
no concurrency primitive, no branching, no loop and no exception handler;
the four `pip install` commands and the initial import block come first,
and the operational stages — (2) fetch the device's calibration data,
(3) build the noise model, (4) construct and run the toy circuit, (5) run
the chemistry/VQE workflow — occur in the stated order; import
statements, however, recur later in the script inside the stage that uses
them, so only the non-import statements are monotonically staged. -/
theorem C1_sequential_stages :
    isMonotone (stagesOf opStage notebook) = true ∧
    ((notebook.take 8).map stmtStage).all (fun n => n == 1) = true ∧
    noConcurrency notebook = true ∧
    noTryStmts notebook = true ∧
    noLoopStmts notebook = true ∧
    noBranchStmts notebook = true := by
  exact ⟨by decide, by decide, by decide, by decide, by decide, by decide⟩

/-- C2: the notebook constructs exactly one quantum circuit (the single
`QuantumCircuit` call), over a 3-qubit quantum register and a 3-bit
classical register, and exactly two `execute` calls occur, both running
`circuit` on `simulator` (the `qasm_simulator` backend): the first with
no noise-model argument, the second with the noise model supplied. -/
theorem C2_one_circuit_two_runs :
    exprListBeq (callsNamed "QuantumCircuit" notebook)
      [.call (.name "QuantumCircuit") [.name "qr", .name "cr"] []] = true ∧
    exprListBeq (assignsTo "qr" notebook)
      [.call (.name "QuantumRegister") [.intLit 3] []] = true ∧
    exprListBeq (assignsTo "cr" notebook)
      [.call (.name "ClassicalRegister") [.intLit 3] []] = true ∧
    exprListBeq (assignsTo "circuit" notebook)
      [.call (.name "QuantumCircuit") [.name "qr", .name "cr"] []] = true ∧
    exprListBeq (assignsTo "simulator" notebook)
      [.call (.attr (.name "Aer") "get_backend") [.strLit "qasm_simulator"] []] = true ∧
    exprListBeq (callsNamed "execute" notebook)
      [.call (.name "execute") [.name "circuit", .name "simulator"] [],
       .call (.name "execute") [.name "circuit", .name "simulator"]
         [("noise_model", .name "noise_model"),
          ("coupling_map", .name "coupling_map"),
          ("basis_gates", .name "basis_gates")]] = true ∧
    (callsNamed "execute" notebook).map (callHasKwarg "noise_model") = [false, true] := by
  exact ⟨by decide, by decide, by decide, by decide, by decide, by decide, by decide⟩

/-- C3: the noise model is the result of the single vendor call
`noise.device.basic_device_noise_model(properties)` applied to the
calibration properties fetched from the device (`device.properties()`,
with `device` the `ibmq_poughkeepsie` backend); the coupling map passed
to the noisy execution comes from that same device's configuration; and
the notebook performs no computation on the calibration data: the
variables `properties` and `coupling_map` are each used exactly once,
directly as a call argument. -/
theorem C3_noise_model_provenance :
    exprListBeq (assignsTo "device" notebook)
      [.call (.attr (.name "IBMQ") "get_backend") [.strLit "ibmq_poughkeepsie"] []] = true ∧
    exprListBeq (assignsTo "properties" notebook)
      [.call (.attr (.name "device") "properties") [] []] = true ∧
    exprListBeq (assignsTo "coupling_map" notebook)
      [.attr (.call (.attr (.name "device") "configuration") [] []) "coupling_map"] = true ∧
    exprListBeq (assignsTo "noise_model" notebook)
      [.call (.attr (.attr (.name "noise") "device") "basic_device_noise_model")
        [.name "properties"] []] = true ∧
    (allSubExprs notebook).countP (fun e => Expr.beq e (.name "properties")) = 1 ∧
    (allSubExprs notebook).countP (fun e => Expr.beq e (.name "coupling_map")) = 1 ∧
    (callsNamed "execute" notebook).map
      (callHasKwargVal "coupling_map" (.name "coupling_map")) = [false, true] := by
  exact ⟨by decide, by decide, by decide, by decide, by decide, by decide, by decide⟩

/-- C4: the chemistry stage drives PySCF on the H2 geometry, builds the
fermionic operator from the molecule's one- and two-body integrals, maps
it with the `'PARITY'` map, applies the two-qubit reduction with
`num_particles`, and runs VQE with a `QuantumInstance` whose
`noise_model` keyword is the very `noise_model` variable assigned once
earlier from the device calibration. -/
theorem C4_chemistry_vqe_pipeline :
    exprListBeq (assignsTo "driver" notebook)
      [.call (.name "PySCFDriver") []
        [("atom", .strLit "H .0 .0 .0; H .0 .0 0.735"),
         ("unit", .attr (.name "UnitsType") "ANGSTROM"),
         ("charge", .intLit 0),
         ("spin", .intLit 0),
         ("basis", .strLit "sto3g")]] = true ∧
    exprListBeq (assignsTo "molecule" notebook)
      [.call (.attr (.name "driver") "run") [] []] = true ∧
    exprListBeq (assignsTo "ferOp" notebook)
      [.call (.name "FermionicOperator") []
        [("h1", .attr (.name "molecule") "one_body_integrals"),
         ("h2", .attr (.name "molecule") "two_body_integrals")]] = true ∧
    exprListBeq (assignsTo "map_type" notebook) [.strLit "PARITY"] = true ∧
    exprListBeq (assignsTo "qubitOp" notebook)
      [.call (.attr (.name "ferOp") "mapping") [.name "map_type"] [],
       .call (.attr (.name "qubitOp") "two_qubit_reduced_operator")
         [.name "num_particles"] []] = true ∧
    exprListBeq (assignsTo "algorithm" notebook)
      [.call (.name "VQE") [.name "qubitOp", .name "var_form", .name "optimizer"] []] = true ∧
    (assignsTo "noise_model" notebook).length = 1 ∧
    exprListBeq (assignsTo "quantum_instance" notebook)
      [.call (.name "QuantumInstance") []
        [("backend", .name "simulator"), ("noise_model", .name "noise_model")]] = true ∧
    exprListBeq (assignsTo "result" notebook)
      [.call (.attr (.name "algorithm") "run") [.name "quantum_instance"] []] = true := by
  refine ⟨by decide, by decide, by decide, by decide, by decide, by decide, by decide,
    by decide, by decide⟩

/-- C5: the notebook contains no `try`/`except`, no loop and no
conditional anywhere, and any exception raised by an external effect
propagates unhandled out of the whole script: whenever execution reaches
a statement that raises, the run of the entire notebook terminates with
exactly that exception and performs no recovery action. -/
theorem C5_errors_propagate :
    noTryStmts notebook = true ∧ noLoopStmts notebook = true ∧
    noBranchStmts notebook = true ∧
    ∀ (o : Oracle) (p : List Stmt) (s : Stmt) (t : List Stmt)
      (st1 st2 : RState) (err : String),
      notebook = p ++ s :: t →
      runStmts o p initState = (st1, none) →
      execStmt o s st1 = (st2, some err) →
      runStmts o notebook initState = (st2, some err) := by
  refine ⟨by decide, by decide, by decide, ?_⟩
  intro o p s t st1 st2 err hsplit hp hs
  rw [hsplit, runStmts_append, hp]
  simp only [runStmts]
  rw [hs]

/-- Witness for C5: in a world whose first effect (the initial
`pip install`) raises a connection error, the whole notebook run raises
that very error. -/
theorem C5_errors_propagate_witness :
    runStmts failOracle notebook initState = (⟨[], 1, []⟩, some "ConnectionError") :=
  C5_errors_propagate.2.2.2 failOracle [] (.shell "pip install --no-cache qiskit")
    (notebook.drop 1) initState ⟨[], 1, []⟩ "ConnectionError" rfl rfl rfl

/-- C6 (counterexample): not every value the notebook binds is produced
by an external-library call or read off an external result: the binding
`map_type = 'PARITY'` assigns a string literal the notebook creates
itself. -/
theorem C6_counterexample :
    ((allAssigns notebook).all fun a => isExternRhs a.2) = false ∧
    exprListBeq (assignsTo "map_type" notebook) [.strLit "PARITY"] = true ∧
    isExternRhs (.strLit "PARITY") = false := by
  exact ⟨by decide, by decide, by decide⟩

/-- C6 (amended): the notebook defines no function and no class of its
own, every expression statement is a library call, and every value it
binds is an external-library call result or an attribute/subscript read
of one, except three scalars the script computes itself (the literal
`map_type` and the derived integers `num_particles` and
`num_spin_orbitals`); in particular the circuit, noise model, qubit
operator, optimizer, variational form, initial state and result bindings
are all produced directly by external calls. -/
theorem C6_no_own_definitions :
    noFuncDefs notebook = true ∧
    noClassDefs notebook = true ∧
    ((allAssigns notebook).all fun a =>
      isExternRhs a.2 || selfComputedNames.contains a.1) = true ∧
    ((["circuit", "noise_model", "qubitOp", "optimizer", "var_form",
       "init_state", "result"]).all fun x =>
        (assignsTo x notebook).all isCallExpr && !(assignsTo x notebook).isEmpty) = true ∧
    ((nestedStmts notebook).all fun s =>
      match s with
      | .exprStmt e => isCallExpr e
      | _ => true) = true := by
  exact ⟨by decide, by decide, by decide, by decide, by decide⟩

set_option maxHeartbeats 1000000 in
/-- C7: the notebook's observable output stream is not a function of the
script alone: in two external worlds that differ only in the three
sampling-dependent effects (the two `get_counts` results and the VQE
`algorithm.run` result — see `resampleOracle`), the script runs to
completion without error both times but displays different outputs. -/
theorem C7_outputs_vary_with_environment :
    (runStmts baseOracle notebook initState).2 = none ∧
    (runStmts resampleOracle notebook initState).2 = none ∧
    (runStmts baseOracle notebook initState).1.outs =
      [.vint 0, .vstr "Available backends:", .vint 0, .vint 0, .vint 0, .vint 0,
       .vint 0, .vint 0, .vint 0, .vint 0, .vint 0, .vint 0, .vint 0] ∧
    (runStmts resampleOracle notebook initState).1.outs =
      [.vint 0, .vstr "Available backends:", .vint 0, .vint 0, .vint 0, .vint 0,
       .vint 0, .vint 0, .vint 0, .vint 1, .vint 1, .vint 0, .vint 1] ∧
    ((runStmts baseOracle notebook initState).1.outs ==
      (runStmts resampleOracle notebook initState).1.outs) = false := by
  refine ⟨?_, ?_, ?_, ?_, ?_⟩ <;>
    simp [notebook, runStmts, execStmt, evalExpr, evalExprList, evalKwList,
      externEffect, lookupEnv, truthy, baseOracle, resampleOracle, initState, intBinop]

/-- C8: the toy circuit is exactly a GHZ preparation (Hadamard on qubit
0, CNOT 0→1, CNOT 1→2, barrier, measure all), and in any noiseless
simulation of it every observed outcome is the bitstring "000" or "111",
whose counts sum to the total number of shots. -/
theorem C8_ghz_support (shots : Nat) (c : Fin 8 → Nat)
    (hc : NoiselessSample shots c) :
    circuitOps = [.h 0, .cx 0 1, .cx 1 2, .barrier, .measureAll] ∧
    (∀ i, c i ≠ 0 → bitstringOf i = "000" ∨ bitstringOf i = "111") ∧
    c 0 + c 7 = shots := by
  obtain ⟨hsum, hsupp⟩ := hc
  have hw : ∀ i : Fin 8, i.val ≠ 0 → i.val ≠ 7 → outcomeWeight i = 0 := by decide
  have hz : ∀ i : Fin 8, i.val ≠ 0 → i.val ≠ 7 → c i = 0 :=
    fun i h0 h7 => hsupp i (hw i h0 h7)
  refine ⟨by decide, ?_, ?_⟩
  · intro i hci
    by_cases h0 : i.val = 0
    · left
      have : i = (0 : Fin 8) := Fin.ext h0
      rw [this]
      rfl
    · by_cases h7 : i.val = 7
      · right
        have : i = (7 : Fin 8) := Fin.ext h7
        rw [this]
        rfl
      · exact absurd (hz i h0 h7) hci
  · rw [Fin.sum_univ_eight] at hsum
    have h1 := hz 1 (by decide) (by decide)
    have h2 := hz 2 (by decide) (by decide)
    have h3 := hz 3 (by decide) (by decide)
    have h4 := hz 4 (by decide) (by decide)
    have h5 := hz 5 (by decide) (by decide)
    have h6 := hz 6 (by decide) (by decide)
    omega

/-- Witness for C8: the outcome counts the notebook's recorded noiseless
run displays, `{'000': 512, '111': 512}` over 1024 shots, are a noiseless
sample, and indeed split the 1024 shots between "000" and "111". -/
theorem C8_ghz_support_witness :
    circuitOps = [.h 0, .cx 0 1, .cx 1 2, .barrier, .measureAll] ∧
    (∀ i, ghzCounts i ≠ 0 → bitstringOf i = "000" ∨ bitstringOf i = "111") ∧
    ghzCounts 0 + ghzCounts 7 = 1024 :=
  C8_ghz_support 1024 ghzCounts ⟨by decide, by decide⟩

/-- C9: the `basis_gates` variable is bound exactly once, verbatim to
`noise_model.basis_gates`, it is used exactly once — as the
`basis_gates` keyword of the noisy `execute` call — so the compilation
target of the noisy run is the gate set the noise model describes. -/
theorem C9_basis_gates_from_noise_model :
    exprListBeq (assignsTo "basis_gates" notebook)
      [.attr (.name "noise_model") "basis_gates"] = true ∧
    (callsNamed "execute" notebook).map
      (callHasKwargVal "basis_gates" (.name "basis_gates")) = [false, true] ∧
    (allSubExprs notebook).countP (fun e => Expr.beq e (.name "basis_gates")) = 1 := by
  exact ⟨by decide, by decide, by decide⟩

/-- C10: the derived chemistry quantities are mutually consistent:
`num_particles` is bound once, to `molecule.num_alpha +
molecule.num_beta`; `num_spin_orbitals` is bound once, to
`molecule.num_orbitals * 2` (whose value equals 2 * the number of
orbitals, by commutativity of the interpreter's multiplication); the
two-qubit reduction is applied to that same `num_particles`;
`num_qubits` is read once off the reduced operator — the read of
`qubitOp.num_qubits` is statement 45 of the script, strictly after both
assignments to `qubitOp` (the mapping, then the reduction, both among
the first 45 statements), and `qubitOp` is never reassigned afterwards,
so the operator read is the reduced one; and `num_qubits` is the qubit
count handed to both the Hartree-Fock initial state and the RYRZ
variational form. -/
theorem C10_chemistry_quantities_consistent :
    exprListBeq (assignsTo "num_particles" notebook)
      [.binop .add (.attr (.name "molecule") "num_alpha")
        (.attr (.name "molecule") "num_beta")] = true ∧
    exprListBeq (assignsTo "num_spin_orbitals" notebook)
      [.binop .mul (.attr (.name "molecule") "num_orbitals") (.intLit 2)] = true ∧
    (∀ n : Int, intBinop .mul n 2 = 2 * n) ∧
    exprListBeq (assignsTo "qubitOp" notebook)
      [.call (.attr (.name "ferOp") "mapping") [.name "map_type"] [],
       .call (.attr (.name "qubitOp") "two_qubit_reduced_operator")
         [.name "num_particles"] []] = true ∧
    exprListBeq (assignsTo "num_qubits" notebook)
      [.attr (.name "qubitOp") "num_qubits"] = true ∧
    exprListBeq (assignsTo "qubitOp" (notebook.take 45))
      [.call (.attr (.name "ferOp") "mapping") [.name "map_type"] [],
       .call (.attr (.name "qubitOp") "two_qubit_reduced_operator")
         [.name "num_particles"] []] = true ∧
    (assignsTo "num_qubits" (notebook.take 45)).isEmpty = true ∧
    exprListBeq (assignsTo "num_qubits" (notebook.take 46))
      [.attr (.name "qubitOp") "num_qubits"] = true ∧
    exprListBeq (assignsTo "init_state" notebook)
      [.call (.name "HartreeFock")
        [.name "num_qubits", .name "num_spin_orbitals", .name "num_particles"] []] = true ∧
    exprListBeq (assignsTo "var_form" notebook)
      [.call (.name "RYRZ") [.name "num_qubits"]
        [("initial_state", .name "init_state")]] = true := by
  refine ⟨by decide, by decide, fun n => ?_, by decide, by decide, by decide, by decide,
    by decide, by decide, by decide⟩
  show n * 2 = 2 * n
  exact Int.mul_comm n 2
